import Mathlib

/-
Verification development for the spendcast-benchmark agent core.

The Python sources under src/ are shallowly embedded here:

* Python strings are modeled as lists of character code points
  (`List Nat`); `pys` converts a Lean string literal to that form.
  All string operations used by the code (strip, lower, split,
  substring containment) are implemented on code-point lists,
  matching Python semantics on the ASCII inputs the code handles.
* Python exceptions are modeled with `Except PyErr`; a `try/except`
  block is translated as a match on the `Except` value.
* Stateful effects of the orchestrator (language-model calls, tool
  catalog fetches, executed tool calls) are threaded through an
  explicit `AgState`; an escaping exception carries the state at the
  point of the raise, as in Python.
* External collaborators (the MCP provider clients and the language
  model) are oracles supplied through environment structures; the
  language-model client `LLMClient.generate_response` is modeled as
  `Option`-returning because its implementation catches all transport
  errors and returns `None` (src/llm_client.py).
-/

namespace Spendcast

/-! ## Python string model -/

/-- Code points of a Lean string literal: the model of a Python `str`. -/
def pys (s : String) : List Nat :=
  s.data.map Char.toNat

/-- Python `str.isspace` characters that `str.strip()` removes, ASCII range:
space, tab, newline, carriage return, vertical tab, form feed. -/
def isPySpace (n : Nat) : Bool :=
  n == 32 || n == 9 || n == 10 || n == 13 || n == 11 || n == 12

/-- ASCII uppercase letter test (code points 65..90). -/
def isUpperCode (n : Nat) : Bool :=
  decide (65 ≤ n ∧ n ≤ 90)

/-- Per-character `str.lower()`: shift ASCII uppercase by 32, else identity. -/
def toLowerCode (n : Nat) : Nat :=
  if 65 ≤ n ∧ n ≤ 90 then n + 32 else n

/-- Python `str.lower()` on the code-point list. -/
def pyLower (l : List Nat) : List Nat :=
  l.map toLowerCode

/-- Python `str.strip()`: drop whitespace from both ends. -/
def pyStrip (l : List Nat) : List Nat :=
  ((l.dropWhile isPySpace).reverse.dropWhile isPySpace).reverse

/-- Python `str.split(sep)` for a one-character separator: split on every
occurrence, keeping empty pieces (so `"a,,b".split(",")` has three pieces). -/
def pySplit (sep : Nat) : List Nat → List (List Nat)
  | [] => [[]]
  | c :: cs =>
    if c = sep then [] :: pySplit sep cs
    else
      match pySplit sep cs with
      | [] => [[c]]
      | h :: t => (c :: h) :: t

/-- Whether `needle` is a prefix of `hay`. -/
def isPrefixCodes : List Nat → List Nat → Bool
  | [], _ => true
  | _ :: _, [] => false
  | a :: as_, b :: bs => a == b && isPrefixCodes as_ bs

/-- Python substring containment `needle in hay`. -/
def containsSub (hay needle : List Nat) : Bool :=
  isPrefixCodes needle hay ||
    match hay with
    | [] => false
    | _ :: t => containsSub t needle

/-- Join a list of strings with the newline character, as `"\n".join(...)`. -/
def joinNewline : List (List Nat) → List Nat
  | [] => []
  | [l] => l
  | l :: ls => l ++ pys "\n" ++ joinNewline ls

/-! ## Selection-reply parsing (src/intelligent_agent.py lines 341-361) -/

/-- Embeds `IntelligentAgent._parse_resource_selection`: strip and lower the
reply; if it contains "none" or "no resources" return the empty list; otherwise
split on commas, strip each token, and keep the non-empty tokens. -/
def parse_resource_selection (response : List Nat) : List (List Nat) :=
  let r := pyLower (pyStrip response)
  if containsSub r (pys "none") || containsSub r (pys "no resources") then []
  else ((pySplit 44 r).map pyStrip).filter (fun t => !t.isEmpty)

/-- Embeds `IntelligentAgent._parse_tool_selection`: same as the resource
parser with the "no tools" keyword instead of "no resources". -/
def parse_tool_selection (response : List Nat) : List (List Nat) :=
  let r := pyLower (pyStrip response)
  if containsSub r (pys "none") || containsSub r (pys "no tools") then []
  else ((pySplit 44 r).map pyStrip).filter (fun t => !t.isEmpty)

/-- The selection rule exactly as the claim states it for the tool parser:
lower-case and trim the reply, return the empty selection on the "none" /
"no tools" keywords, and otherwise split the reply on commas and trim each
token (nothing is said about discarding empty tokens). -/
def spec_tool_selection_literal (response : List Nat) : List (List Nat) :=
  let r := pyStrip (pyLower response)
  if containsSub r (pys "none") || containsSub r (pys "no tools") then []
  else (pySplit 44 r).map pyStrip

/-- The amended selection rule for the tool parser: as stated by the claim,
plus dropping the empty tokens that consecutive, leading or trailing commas
produce. -/
def spec_tool_selection_amended (response : List Nat) : List (List Nat) :=
  let r := pyStrip (pyLower response)
  if containsSub r (pys "none") || containsSub r (pys "no tools") then []
  else ((pySplit 44 r).map pyStrip).filter (fun t => !t.isEmpty)

/-- The amended selection rule for the resource parser ("no resources"
keyword), with empty tokens dropped. -/
def spec_resource_selection_amended (response : List Nat) : List (List Nat) :=
  let r := pyStrip (pyLower response)
  if containsSub r (pys "none") || containsSub r (pys "no resources") then []
  else ((pySplit 44 r).map pyStrip).filter (fun t => !t.isEmpty)

/-! ## JSON-like values (payloads of tool calls) -/

/-- Structured values carried by tool-call parameters and tool input schemas.
`json.loads` itself is an oracle (`List Nat → Option JVal`) wherever the code
calls it, since the claims under verification never depend on the grammar. -/
inductive JVal where
  | null
  | jbool (b : Bool)
  | jnum (n : Int)
  | jstr (s : List Nat)
  | jarr (elems : List JVal)
  | jobj (fields : List (List Nat × JVal))

/-! ## Directive extraction (src/intelligent_agent.py lines 170-288)

`_process_tool_calls` runs
`re.findall(r"TOOL_CALL:\s*(\w+)\s*\nPARAMETERS:\s*(\x7b.*?\x7d)", response,
re.MULTILINE | re.DOTALL)`.  For this fixed pattern the regex engine is
deterministic and is embedded directly:

* `\s*` before `(\w+)` and before the opening brace is greedy, and the
  character class that follows each of them is disjoint from whitespace,
  so no backtracking can arise there;
* `\s*\n` after the name: the following literal starts with `P`, which is
  not whitespace, so the whitespace run after the name must end with a
  newline — backtracking cannot produce any other split;
* the lazy `.*?` (with DOTALL) inside the second group stops at the first
  closing brace after the opening one.
-/

/-- Python regex `\w` on ASCII: letters, digits, underscore. -/
def isWordCode (n : Nat) : Bool :=
  decide ((48 ≤ n ∧ n ≤ 57) ∨ (65 ≤ n ∧ n ≤ 90) ∨ (97 ≤ n ∧ n ≤ 122) ∨ n = 95)

/-- Drop an expected literal prefix, or fail. -/
def dropLiteral : List Nat → List Nat → Option (List Nat)
  | [], s => some s
  | _ :: _, [] => none
  | a :: as_, b :: bs => if a = b then dropLiteral as_ bs else none

/-- Lazy `.*?\x7d` after the opening brace: take characters up to and
including the first closing brace (code 125); fail if none occurs. -/
def takeToFirstClose : List Nat → Option (List Nat × List Nat)
  | [] => none
  | c :: rest =>
    if c = 125 then some ([c], rest)
    else (takeToFirstClose rest).map fun p => (c :: p.1, p.2)

/-- Match the tool-call directive pattern at the head of `s`, returning the
two capture groups (tool name, parameter text) and the remainder of the
input after the match. -/
def matchDirectiveAt (s : List Nat) : Option (List Nat × List Nat × List Nat) :=
  match dropLiteral (pys "TOOL_CALL:") s with
  | none => none
  | some s1 =>
    let s2 := s1.dropWhile isPySpace
    let name := s2.takeWhile isWordCode
    if name.isEmpty then none
    else
      let s3 := s2.dropWhile isWordCode
      let run := s3.takeWhile isPySpace
      if run.getLast? ≠ some 10 then none
      else
        match dropLiteral (pys "PARAMETERS:") (s3.dropWhile isPySpace) with
        | none => none
        | some s5 =>
          match s5.dropWhile isPySpace with
          | [] => none
          | c :: s7 =>
            if c = 123 then
              match takeToFirstClose s7 with
              | none => none
              | some (body, rest) => some (name, 123 :: body, rest)
            else none

/-- `re.findall` driver: scan start positions left to right; on a match,
emit the captures and resume after the matched span (non-overlapping
matches).  The fuel argument is the input length: every successful match
consumes at least the `TOOL_CALL:` literal, so the fuel never runs out. -/
def findallAux : Nat → List Nat → List (List Nat × List Nat)
  | 0, _ => []
  | _, [] => []
  | fuel + 1, s =>
    match matchDirectiveAt s with
    | some (name, params, rest) => (name, params) :: findallAux fuel rest
    | none =>
      match s with
      | [] => []
      | _ :: t => findallAux fuel t

/-- Embeds the `re.findall` call of `_process_tool_calls` (line 179-180):
the list of `(tool_name, params_str)` capture pairs. -/
def findall_tool_calls (response : List Nat) : List (List Nat × List Nat) :=
  findallAux response.length response

/-- Embeds the span extraction of `_parse_tool_parameters` (lines 254-280):
strip the parameter text, find the first opening brace, then scan forward
keeping a (signed, as in Python) nesting count and stop at the first closing
brace that returns the count to zero; `None` when there is no opening brace
or no matching close. -/
def matchingSpan (count : Int) : List Nat → Option (List Nat)
  | [] => none
  | c :: cs =>
    let count2 : Int := if c = 123 then count + 1 else if c = 125 then count - 1 else count
    if c = 125 ∧ count2 = 0 then some [c]
    else (matchingSpan count2 cs).map fun r => c :: r

/-- The `json_str` that `_parse_tool_parameters` would hand to `json.loads`,
or `none` when the function returns early (no brace / no matching brace). -/
def parse_tool_parameters_span (params_str : List Nat) : Option (List Nat) :=
  let stripped := pyStrip params_str
  let tail := stripped.dropWhile (fun c => !(c == 123))
  match tail with
  | [] => none
  | _ :: _ => matchingSpan 0 tail

/-- Embeds `IntelligentAgent._parse_tool_parameters` with `json.loads` as an
oracle: extract the span, then decode it; any decode failure is `None`. -/
def parse_tool_parameters (jsonLoads : List Nat → Option JVal)
    (params_str : List Nat) : Option JVal :=
  (parse_tool_parameters_span params_str).bind jsonLoads

/-! ## Python exceptions -/

/-- A raised Python exception: a generic exception with its `str(e)` text, or
`asyncio.TimeoutError` (whose text the code never reads). -/
inductive PyErr where
  | exc (msg : List Nat)
  | timeoutError
deriving DecidableEq

/-- The `str(e)` text interpolated into user-facing messages. -/
def PyErr.str : PyErr → List Nat
  | .exc m => m
  | .timeoutError => []

/-! ## On-demand MCP manager (src/mcp_on_demand_manager.py)

A provider client is an oracle: the outcomes of `connect_to_server`,
`list_tools`, `call_tool` and `dispose` on its single-use process are
supplied as `Except` values.  The manager code is what is embedded. -/

/-- A tool object of a provider's `list_tools` response; each field models
`getattr(tool, field, default)` with `none` for a missing attribute. -/
structure RawTool where
  name : Option (List Nat)
  description : Option (List Nat)
  inputSchema : Option JVal

/-- The `list_tools` response object; `tools` models
`getattr(tools_response, "tools", [])`. -/
structure ToolsResponse where
  tools : Option (List RawTool)

/-- One content item of an MCP call result: `text` models
`getattr(first, "text", None)` and `asStr` models `str(first)`. -/
structure ContentItem where
  text : Option (List Nat)
  asStr : List Nat

/-- An MCP `call_tool` result object; `content` models
`getattr(result, "content", [])`. -/
structure MCPCallResult where
  content : Option (List ContentItem)

/-- Oracle for one provider client used by the manager loops. -/
structure ProviderBehavior where
  connect : Except PyErr Unit
  listTools : Except PyErr ToolsResponse
  callTool : List Nat → JVal → Except PyErr (Option MCPCallResult)
  dispose : Except PyErr Unit

/-! ### Catalog aggregation (`MCPOnDemandManager.get_available_tools`, lines 29-62) -/

/-- Tool catalog entries as the orchestrator sees them.  The on-demand
manager builds plain dictionaries (`dict`); tests and other managers hand
the agent attribute-style objects (`obj`, with `serverName = none` when the
object has no `server_name` attribute). -/
inductive ToolVal where
  | obj (name description : List Nat) (serverName : Option (List Nat))
  | dict (name description : List Nat) (inputSchema : JVal) (server : List Nat)

/-- The dictionary the manager appends for one listed tool (lines 46-53),
with the `getattr` defaults `"unknown"`, `""` and the empty schema, tagged
with the provider's name under the `"server"` key. -/
def toolDictOf (server : List Nat) (t : RawTool) : ToolVal :=
  ToolVal.dict (t.name.getD (pys "unknown")) (t.description.getD [])
    (t.inputSchema.getD (JVal.jobj [])) server

/-- The provider tag of a catalog entry: the `"server"` key of a manager
dictionary, or the `server_name` attribute of an attribute-style tool. -/
def tool_server_tag : ToolVal → Option (List Nat)
  | .dict _ _ _ sv => some sv
  | .obj _ _ sv => sv

/-- The `try` body of one iteration of the aggregation loop: connect, list
tools, convert each listed tool to its tagged dictionary. -/
def provider_fetch_try (server : List Nat) (b : ProviderBehavior) :
    Except PyErr (List ToolVal) :=
  match b.connect with
  | .error e => .error e
  | .ok _ =>
    match b.listTools with
    | .error e => .error e
    | .ok resp => .ok ((resp.tools.getD []).map (toolDictOf server))

/-- Whether a provider fails during aggregation (spawn/connect or list). -/
def provider_fails (b : ProviderBehavior) : Bool :=
  match b.connect with
  | .error _ => true
  | .ok _ =>
    match b.listTools with
    | .error _ => true
    | .ok _ => false

/-- The raw tools a provider would contribute when it succeeds. -/
def provider_raw_tools (b : ProviderBehavior) : List RawTool :=
  match b.listTools with
  | .ok resp => resp.tools.getD []
  | .error _ => []

/-- Embeds `MCPOnDemandManager.get_available_tools`: iterate over the
registered `(server_name, client)` pairs in order; a failing provider's
exception is caught and logged and the loop continues; the `finally` block
disposes the client, swallowing any disposal error. -/
def get_available_tools_manager : List (List Nat × ProviderBehavior) → List ToolVal
  | [] => []
  | (server, b) :: rest =>
    let contrib :=
      match provider_fetch_try server b with
      | .ok ts => ts
      | .error _ => []
    let _ := (match b.dispose with | .ok _ => () | .error _ => ())
    contrib ++ get_available_tools_manager rest

/-! ### Tool-call routing (`MCPOnDemandManager.call_tool`, lines 64-103) -/

/-- The content-text extraction of lines 79-89: first content item's `text`
attribute if it is a non-empty string, else `str(first)`; `None` when the
result or its content list is absent/empty. -/
def extract_content_text : Option MCPCallResult → Option (List Nat)
  | none => none
  | some r =>
    match r.content.getD [] with
    | [] => none
    | first :: _ =>
      match first.text with
      | some t => if t.isEmpty then some first.asStr else some t
      | none => some first.asStr

/-- The `try` body of one iteration of the call loop: connect, call the
tool, extract the textual content. -/
def call_tool_provider_try (b : ProviderBehavior) (tool : List Nat) (args : JVal) :
    Except PyErr (Option (List Nat)) :=
  match b.connect with
  | .error e => .error e
  | .ok _ =>
    match b.callTool tool args with
    | .error e => .error e
    | .ok result => .ok (extract_content_text result)

/-- Whether a provider produces a (truthy) result for this call. -/
def provider_produces (b : ProviderBehavior) (tool : List Nat) (args : JVal) : Bool :=
  match call_tool_provider_try b tool args with
  | .ok (some t) => !t.isEmpty
  | _ => false

/-- Embeds `MCPOnDemandManager.call_tool`: try each registered provider in
order; return the first truthy content text; a per-provider exception is
caught and the loop continues; the `finally` dispose swallows its own
errors; when no provider produces a result the loop falls through to
`return None`. -/
def call_tool_manager : List (List Nat × ProviderBehavior) → List Nat → JVal →
    Except PyErr (Option (List Nat))
  | [], _, _ => .ok none
  | (_, b) :: rest, tool, args =>
    let outcome := call_tool_provider_try b tool args
    let _ := (match b.dispose with | .ok _ => () | .error _ => ())
    match outcome with
    | .ok (some text) =>
      if text.isEmpty then call_tool_manager rest tool args
      else .ok (some text)
    | .ok none => call_tool_manager rest tool args
    | .error _ => call_tool_manager rest tool args

/-! ## Persistent client teardown (`MCPClient.disconnect`, src/mcp_client.py lines 85-108) -/

/-- The two reference-holding fields of `MCPClient` that `disconnect`
releases; the payloads identify the session / OS process held. -/
structure MCPClientState where
  session : Option (List Nat)
  server_process : Option (List Nat)
deriving DecidableEq

/-- An OS-level release performed by `disconnect`. -/
inductive ReleaseAction where
  | close_session (sid : List Nat)
  | terminate_process (pid : List Nat)
deriving DecidableEq

/-- Oracle for the fallible release operations of `disconnect`. -/
structure DisconnectBehavior where
  aclose : Except PyErr Unit
  terminate : Except PyErr Unit

/-- Embeds `MCPClient.disconnect`: if a session is held, close it (errors
caught and logged) and clear the reference; if a process is held, terminate
it (errors caught and logged) and clear the reference.  Returns the new
state and the OS releases performed. -/
def mcp_disconnect (b : DisconnectBehavior) (st : MCPClientState) :
    Except PyErr (MCPClientState × List ReleaseAction) :=
  let p1 :=
    match st.session with
    | some sid =>
      let _ := (match b.aclose with | .ok _ => () | .error _ => ())
      ({ st with session := none }, [ReleaseAction.close_session sid])
    | none => (st, [])
  match p1.1.server_process with
  | some pid =>
    let _ := (match b.terminate with | .ok _ => () | .error _ => ())
    .ok ({ p1.1 with server_process := none }, p1.2 ++ [ReleaseAction.terminate_process pid])
  | none => .ok (p1.1, p1.2)

/-! ## On-demand client timeout (`MCPOnDemandClient.call_tool`, src/mcp_on_demand_client.py lines 21-50) -/

/-- The default `timeout` of `MCPOnDemandClient.__init__`. -/
def on_demand_default_timeout : Nat := 30

/-- `asyncio.wait_for`: deliver the worker thread's outcome if it completes
within the timeout, else raise `asyncio.TimeoutError`. `elapsed` is the time
the underlying tool execution takes; `inner` its outcome. -/
def od_wait_for (timeout elapsed : Nat) (inner : Except PyErr (Option (List Nat))) :
    Except PyErr (Option (List Nat)) :=
  if elapsed ≤ timeout then inner else .error PyErr.timeoutError

/-- Embeds `MCPOnDemandClient.call_tool`: await the worker with
`asyncio.wait_for`; on `TimeoutError` cancel and return `None`; any other
exception is caught by the outer handler, also returning `None`. -/
def od_call_tool (timeout elapsed : Nat) (inner : Except PyErr (Option (List Nat))) :
    Except PyErr (Option (List Nat)) :=
  let awaited : Except PyErr (Option (List Nat)) :=
    match od_wait_for timeout elapsed inner with
    | .error PyErr.timeoutError => .ok none
    | r => r
  match awaited with
  | .ok r => .ok r
  | .error _ => .ok none

/-! ## Orchestrator (src/intelligent_agent.py)

The agent's collaborators are oracles in `AgEnv`; its observable effects
(language-model calls, catalog fetches, executed tool calls) are threaded
through `AgState`.  An escaping exception carries the state at the raise
point, so a computation has type `AgState → Except (PyErr × AgState)
(α × AgState)` and a Python `try/except` is a match on that value. -/

/-- The apostrophe code point, used to assemble the message literals of the
agent without quoting issues. -/
def apos : List Nat := [39]

/-- Observable effect counters of one `process_user_request` run. -/
structure AgState where
  llmCalls : Nat
  toolsFetches : Nat
  executedTools : List (List Nat)
deriving DecidableEq

/-- Result of an agent-side computation: value and state, or the raised
exception with the state at the raise point. -/
abbrev AgRes (α : Type) := Except (PyErr × AgState) (α × AgState)

/-- A resource object; fields model `getattr(resource, field, default)`. -/
structure ResVal where
  name : Option (List Nat)
  description : Option (List Nat)

/-- Oracles for the agent's collaborators.  `tools k` / `llm k` is the
outcome of the (k+1)-th `get_available_tools` / `generate_response` call;
the manager's methods may raise, the LLM client never does (it catches all
transport errors and returns `None`). -/
structure AgEnv where
  resources : Except PyErr (List ResVal)
  tools : Nat → Except PyErr (List ToolVal)
  llm : Nat → Option (List Nat)
  callTool : List Nat → JVal → Except PyErr (Option (List Nat))
  jsonLoads : List Nat → Option JVal

/-- `self.llm_client.generate_response(prompt)`: consumes one LLM call. -/
def llm_generate (env : AgEnv) (_prompt : List Nat) (s : AgState) :
    AgRes (Option (List Nat)) :=
  .ok (env.llm s.llmCalls, { s with llmCalls := s.llmCalls + 1 })

/-- `await self.mcp_manager.get_available_tools()`: consumes one fetch. -/
def fetch_available_tools (env : AgEnv) (s : AgState) : AgRes (List ToolVal) :=
  match env.tools s.toolsFetches with
  | .ok ts => .ok (ts, { s with toolsFetches := s.toolsFetches + 1 })
  | .error e => .error (e, { s with toolsFetches := s.toolsFetches + 1 })

/-- `await self.mcp_manager.call_tool(tool_name, params)`: records the
executed tool, then delivers the manager's outcome. -/
def env_call_tool (env : AgEnv) (tool : List Nat) (args : JVal) (s : AgState) :
    AgRes (Option (List Nat)) :=
  let s1 := { s with executedTools := s.executedTools ++ [tool] }
  match env.callTool tool args with
  | .ok r => .ok (r, s1)
  | .error e => .error (e, s1)

/-! ### Prompt formatting (lines 314-339) -/

/-- The `AttributeError` raised by attribute access on a plain `dict`. -/
def dict_attr_error (attr : List Nat) : PyErr :=
  .exc (apos ++ pys "dict" ++ apos ++ pys " object has no attribute " ++
    apos ++ attr ++ apos)

/-- Attribute access `tool.name`: raises `AttributeError` on the plain
dictionaries the on-demand manager produces. -/
def tool_attr_name : ToolVal → Except PyErr (List Nat)
  | .obj n _ _ => .ok n
  | .dict _ _ _ _ => .error (dict_attr_error (pys "name"))

/-- Attribute access `tool.description`. -/
def tool_attr_description : ToolVal → Except PyErr (List Nat)
  | .obj _ d _ => .ok d
  | .dict _ _ _ _ => .error (dict_attr_error (pys "description"))

/-- `getattr(tool, 'server_name', 'unknown')`: total, with the default. -/
def tool_getattr_server_name : ToolVal → List Nat
  | .obj _ _ (some sv) => sv
  | .obj _ _ none => pys "unknown"
  | .dict _ _ _ _ => pys "unknown"

/-- Embeds `_format_available_resources` (total: it uses `getattr` with
defaults throughout). -/
def format_available_resources (rs : List ResVal) : List Nat :=
  if rs.isEmpty then pys "No resources available"
  else
    joinNewline (rs.map fun r =>
      pys "- " ++ r.name.getD (pys "Unknown") ++ pys ": " ++
        r.description.getD (pys "No description"))

/-- The per-tool lines of `_format_available_tools`, evaluating the
attribute accesses left to right so a dictionary raises on its `name`. -/
def format_tool_lines : List ToolVal → Except PyErr (List (List Nat))
  | [] => .ok []
  | t :: ts =>
    match tool_attr_name t with
    | .error e => .error e
    | .ok n =>
      match tool_attr_description t with
      | .error e => .error e
      | .ok d =>
        let sv := tool_getattr_server_name t
        match format_tool_lines ts with
        | .error e => .error e
        | .ok rest => .ok ((pys "- " ++ n ++ pys " (" ++ sv ++ pys "): " ++ d) :: rest)

/-- Embeds `_format_available_tools`: reads `tool.name` / `tool.description`
by attribute access, so it raises on dictionary catalog entries. -/
def format_available_tools (ts : List ToolVal) : Except PyErr (List Nat) :=
  if ts.isEmpty then .ok (pys "No tools available")
  else
    match format_tool_lines ts with
    | .error e => .error e
    | .ok lines => .ok (joinNewline lines)

/-! ### Prompt texts

The claims never inspect the prompt wording, only whether building a prompt
raises; the templates are therefore assembled from their dynamic parts with
the literal template prose abbreviated. -/

/-- The phase-1 resource prompt of `determine_needed_resources`. -/
def resource_prompt (q fmt : List Nat) : List Nat :=
  pys "User request: " ++ q ++ pys "\n\nAvailable resources:\n" ++ fmt ++
    pys "\n\nWhich of these resources do you need to fulfill this request?"

/-- The phase-1 tool prompt of `determine_needed_tools`, including the
chosen resources (joined with commas, or the word None). -/
def tool_prompt (q : List Nat) (needed_resources : List (List Nat)) (fmt : List Nat) :
    List Nat :=
  let res :=
    if needed_resources.isEmpty then pys "None"
    else joinNewline needed_resources
  pys "User request: " ++ q ++ pys "\n\nResources that will be available: " ++ res ++
    pys "\n\nAvailable tools:\n" ++ fmt ++
    pys "\n\nWhich of these tools do you need to fulfill this request?"

/-- The phase-2 execution prompt of `execute_with_context`. -/
def exec_prompt (q fmt : List Nat) : List Nat :=
  pys "User request: " ++ q ++ pys "\n\nAvailable tools for this request:\n" ++ fmt ++
    pys "\n\nWhat should I do to fulfill this request? Use the available tools if needed."

/-- The synthesis prompt of `_generate_final_response`. -/
def final_prompt (q tool_results : List Nat) : List Nat :=
  pys "User request: " ++ q ++ pys "\n\nTool execution results:\n" ++ tool_results ++
    pys "\n\nBased on the tool results above, provide a helpful and complete response."

/-! ### Message literals of the agent -/

/-- The marker `execute_with_context` greps for in the processed response. -/
def tool_marker : List Nat := pys "Tool " ++ apos

/-- Result line `Tool '<name>' result: <text>`. -/
def tool_result_line (name text : List Nat) : List Nat :=
  tool_marker ++ name ++ apos ++ pys " result: " ++ text

/-- Failure line `Tool '<name>' failed to execute`. -/
def tool_fail_line (name : List Nat) : List Nat :=
  tool_marker ++ name ++ apos ++ pys " failed to execute"

/-- Failure line `Tool '<name>' parameters could not be parsed`. -/
def tool_param_fail_line (name : List Nat) : List Nat :=
  tool_marker ++ name ++ apos ++ pys " parameters could not be parsed"

/-- Failure line `Tool '<name>' execution failed: <e>`. -/
def tool_exc_line (name : List Nat) (e : PyErr) : List Nat :=
  tool_marker ++ name ++ apos ++ pys " execution failed: " ++ e.str

/-- Reply when the execution-phase LLM call yields nothing. -/
def no_response_msg : List Nat :=
  pys "I couldn" ++ apos ++ pys "t generate a response for your request."

/-- Fallback reply of `_generate_final_response`. -/
def final_fallback_msg (tool_results : List Nat) : List Nat :=
  pys "I executed the requested tools but couldn" ++ apos ++
    pys "t generate a final response. Here are the tool results:\n\n" ++ tool_results

/-- The top-level apologetic reply of `process_user_request`, embedding the
error text. -/
def error_reply (e : PyErr) : List Nat :=
  pys "I encountered an error while processing your request: " ++ e.str

/-! ### Phase 1 (lines 53-121) -/

/-- Embeds `determine_needed_resources`: with no resources available, return
the empty list without an LLM round-trip; otherwise ask the model and parse
its reply (a falsy reply selects nothing). -/
def determine_needed_resources (env : AgEnv) (q : List Nat) (s : AgState) :
    AgRes (List (List Nat)) :=
  match env.resources with
  | .error e => .error (e, s)
  | .ok rs =>
    if rs.isEmpty then .ok ([], s)
    else
      match llm_generate env (resource_prompt q (format_available_resources rs)) s with
      | .error es => .error es
      | .ok (resp, s1) =>
        match resp with
        | none => .ok ([], s1)
        | some r => if r.isEmpty then .ok ([], s1) else .ok (parse_resource_selection r, s1)

/-- Embeds `determine_needed_tools`: with no tools available, return the
empty list without an LLM round-trip; otherwise build the prompt (the
f-string formats every tool, which can raise) and parse the model's reply. -/
def determine_needed_tools (env : AgEnv) (q : List Nat)
    (needed_resources : List (List Nat)) (s : AgState) : AgRes (List (List Nat)) :=
  match fetch_available_tools env s with
  | .error es => .error es
  | .ok (ts, s1) =>
    if ts.isEmpty then .ok ([], s1)
    else
      match format_available_tools ts with
      | .error e => .error (e, s1)
      | .ok fmt =>
        match llm_generate env (tool_prompt q needed_resources fmt) s1 with
        | .error es => .error es
        | .ok (resp, s2) =>
          match resp with
          | none => .ok ([], s2)
          | some r => if r.isEmpty then .ok ([], s2) else .ok (parse_tool_selection r, s2)

/-! ### Phase 2 (lines 123-312) -/

/-- The list comprehension of line 128:
`[tool for tool in available_tools if tool.name in needed_tools]`; the
attribute access makes it fallible. -/
def filter_relevant_tools (ts : List ToolVal) (needed : List (List Nat)) :
    Except PyErr (List ToolVal) :=
  match ts with
  | [] => .ok []
  | t :: rest =>
    match tool_attr_name t with
    | .error e => .error e
    | .ok n =>
      match filter_relevant_tools rest needed with
      | .error e => .error e
      | .ok l => .ok (if needed.contains n then t :: l else l)

/-- The `try` body of one iteration of the tool-call loop of
`_process_tool_calls` (lines 189-231): parse the captured parameters (an
unparsable payload yields its distinct failure line), call the manager,
and render the result or failure line. -/
def tool_call_try (env : AgEnv) (tname pstr : List Nat) (s : AgState) :
    AgRes (List Nat) :=
  match parse_tool_parameters env.jsonLoads pstr with
  | none => .ok (tool_param_fail_line tname, s)
  | some p =>
    match env_call_tool env tname p s with
    | .error es => .error es
    | .ok (r, s1) =>
      match r with
      | some text => if text.isEmpty then .ok (tool_fail_line tname, s1)
                     else .ok (tool_result_line tname text, s1)
      | none => .ok (tool_fail_line tname, s1)

/-- One iteration of the tool-call loop with its `except Exception` handler
(lines 233-242): an exception becomes the execution-failed line. -/
def tool_call_step (env : AgEnv) (tname pstr : List Nat) (s : AgState) :
    List Nat × AgState :=
  match tool_call_try env tname pstr s with
  | .ok r => r
  | .error (e, s1) => (tool_exc_line tname e, s1)

/-- The whole tool-call loop: one result line per captured directive. -/
def run_tool_call_loop (env : AgEnv) :
    List (List Nat × List Nat) → AgState → List (List Nat) × AgState
  | [], s => ([], s)
  | (tname, pstr) :: rest, s =>
    let r := tool_call_step env tname pstr s
    let rr := run_tool_call_loop env rest r.2
    (r.1 :: rr.1, rr.2)

/-- Embeds `_process_tool_calls`: fetch the catalog (empty catalog returns
the response unchanged), find the directives, execute them, and append
their result lines to the response. -/
def process_tool_calls (env : AgEnv) (response : List Nat) (s : AgState) :
    AgRes (List Nat) :=
  match fetch_available_tools env s with
  | .error es => .error es
  | .ok (ts, s1) =>
    if ts.isEmpty then .ok (response, s1)
    else
      match findall_tool_calls response with
      | [] => .ok (response, s1)
      | m :: ms =>
        let rr := run_tool_call_loop env (m :: ms) s1
        if rr.1.isEmpty then .ok (response, rr.2)
        else .ok (response ++ pys "\n\n" ++ joinNewline rr.1, rr.2)

/-- Embeds `_generate_final_response`: one more LLM call; a falsy reply
falls back to echoing the tool results. -/
def generate_final_response (env : AgEnv) (q tool_results : List Nat) (s : AgState) :
    AgRes (List Nat) :=
  match llm_generate env (final_prompt q tool_results) s with
  | .error es => .error es
  | .ok (resp, s1) =>
    match resp with
    | none => .ok (final_fallback_msg tool_results, s1)
    | some r => if r.isEmpty then .ok (final_fallback_msg tool_results, s1)
                else .ok (r, s1)

/-- Embeds `execute_with_context`: fetch the catalog, filter it to the
needed tools (attribute access, fallible), format the prompt (fallible),
ask the model, process directives, and when a tool was reported on and the
response changed, synthesize a final answer. -/
def execute_with_context (env : AgEnv) (q : List Nat)
    (_needed_resources needed_tools : List (List Nat)) (s : AgState) : AgRes (List Nat) :=
  match fetch_available_tools env s with
  | .error es => .error es
  | .ok (ts, s1) =>
    match filter_relevant_tools ts needed_tools with
    | .error e => .error (e, s1)
    | .ok relevant =>
      match format_available_tools relevant with
      | .error e => .error (e, s1)
      | .ok fmt =>
        match llm_generate env (exec_prompt q fmt) s1 with
        | .error es => .error es
        | .ok (resp, s2) =>
          match resp with
          | none => .ok (no_response_msg, s2)
          | some r =>
            if r.isEmpty then .ok (no_response_msg, s2)
            else
              match process_tool_calls env r s2 with
              | .error es => .error es
              | .ok (processed, s3) =>
                if containsSub processed tool_marker ∧ processed ≠ r then
                  generate_final_response env q processed s3
                else .ok (processed, s3)

/-! ### Top level (lines 26-51) -/

/-- The body of the `try` block of `process_user_request`: phase 1
(resources then tools) followed by phase 2. -/
def agent_pipeline (env : AgEnv) (q : List Nat) (s : AgState) : AgRes (List Nat) :=
  match determine_needed_resources env q s with
  | .error es => .error es
  | .ok (nr, s1) =>
    match determine_needed_tools env q nr s1 with
    | .error es => .error es
    | .ok (nt, s2) => execute_with_context env q nr nt s2

/-- Embeds `process_user_request`: the pipeline under the top-level
`except Exception` handler that converts any raise into the apologetic
reply embedding the error text. -/
def process_user_request (env : AgEnv) (q : List Nat) (s : AgState) :
    AgRes (List Nat) :=
  match agent_pipeline env q s with
  | .ok r => .ok r
  | .error (e, s1) => .ok (error_reply e, s1)

/-! ## Concrete fixtures

Inputs and oracle instantiations used to evaluate the definitions on
concrete runs. -/

/-- The spec's directive-parsing example input
`TOOL_CALL: foo\nPARAMETERS: {"a": {"b": 1}} trailing junk`. -/
def c1_input : List Nat :=
  pys "TOOL_CALL: foo\nPARAMETERS: \x7b\"a\": \x7b\"b\": 1\x7d\x7d trailing junk"

/-- The parameter payload of the example (everything after `PARAMETERS: `). -/
def c1_payload : List Nat := pys "\x7b\"a\": \x7b\"b\": 1\x7d\x7d trailing junk"

/-- What the lazy regex group actually captures from the payload: the prefix
up to the first closing brace, an unbalanced string. -/
def c1_capture : List Nat := pys "\x7b\"a\": \x7b\"b\": 1\x7d"

/-- The full balanced object of the example. -/
def c1_object : List Nat := pys "\x7b\"a\": \x7b\"b\": 1\x7d\x7d"

/-- A provider that connects but owns no matching tool: its `call_tool`
returns `None`. -/
def provider_without_tool : ProviderBehavior where
  connect := .ok ()
  listTools := .ok ⟨some []⟩
  callTool := fun _ _ => .ok none
  dispose := .ok ()

/-- A provider that fails to spawn/connect. -/
def provider_failing : ProviderBehavior where
  connect := .error (.exc (pys "spawn failed"))
  listTools := .error (.exc (pys "not connected"))
  callTool := fun _ _ => .error (.exc (pys "not connected"))
  dispose := .ok ()

/-- A healthy provider listing one tool. -/
def provider_with_tool : ProviderBehavior where
  connect := .ok ()
  listTools := .ok ⟨some [⟨some (pys "execute_sparql"), some (pys "run sparql"), none⟩]⟩
  callTool := fun _ _ => .ok none
  dispose := .ok ()

/-- An environment whose resource lookup raises. -/
def env_raising : AgEnv where
  resources := .error (.exc (pys "boom"))
  tools := fun _ => .ok []
  llm := fun _ => none
  callTool := fun _ _ => .ok none
  jsonLoads := fun _ => none

/-- An environment with zero providers: no resources, an empty catalog, and
a model that answers every prompt with "hello". -/
def env_zero_providers : AgEnv where
  resources := .ok []
  tools := fun _ => .ok []
  llm := fun _ => some (pys "hello")
  callTool := fun _ _ => .ok none
  jsonLoads := fun _ => none

/-- The registry of `provider_with_tool` under the name "srv". -/
def provs_one_good : List (List Nat × ProviderBehavior) :=
  [(pys "srv", provider_with_tool)]

/-- An environment wired to the on-demand manager over `provs_one_good`:
every catalog fetch returns the manager's dictionary entries. -/
def env_dict_catalog : AgEnv where
  resources := .ok []
  tools := fun _ => .ok (get_available_tools_manager provs_one_good)
  llm := fun _ => some (pys "hello")
  callTool := fun _ _ => .ok none
  jsonLoads := fun _ => none

/-! ## Helper lemmas -/

/-- Lowercasing a character preserves whether it is whitespace. -/
theorem isPySpace_toLowerCode (n : Nat) : isPySpace (toLowerCode n) = isPySpace n := by
  unfold toLowerCode
  split
  · next h =>
    have hfalse : ∀ m, 65 ≤ m →
        (m == 32 || m == 9 || m == 10 || m == 13 || m == 11 || m == 12) = false := by
      intro m hm
      simp only [Bool.or_eq_false_iff, beq_eq_false_iff_ne, ne_eq]
      omega
    simp only [isPySpace]
    rw [hfalse _ (by omega), hfalse _ h.1]
  · rfl

/-- `dropWhile` commutes with a map whose predicate it respects. -/
theorem dropWhile_map_comm (f : Nat → Nat) (p : Nat → Bool)
    (hp : ∀ a, p (f a) = p a) (l : List Nat) :
    (l.map f).dropWhile p = (l.dropWhile p).map f := by
  induction l with
  | nil => rfl
  | cons a t ih =>
    simp only [List.map_cons, List.dropWhile_cons, hp a]
    split
    · exact ih
    · rfl

/-- Stripping commutes with lowercasing, because lowercasing maps
whitespace to whitespace and non-whitespace to non-whitespace. -/
theorem pyStrip_pyLower (l : List Nat) : pyStrip (pyLower l) = pyLower (pyStrip l) := by
  unfold pyStrip pyLower
  rw [dropWhile_map_comm _ _ isPySpace_toLowerCode, ← List.map_reverse,
    dropWhile_map_comm _ _ isPySpace_toLowerCode, ← List.map_reverse]

/-- Membership survives `dropWhile`. -/
theorem mem_of_mem_dropWhile (p : Nat → Bool) (c : Nat) (l : List Nat)
    (h : c ∈ l.dropWhile p) : c ∈ l := by
  induction l with
  | nil => simp at h
  | cons a t ih =>
    rw [List.dropWhile_cons] at h
    split at h
    · exact List.mem_cons_of_mem _ (ih h)
    · exact h

/-- Membership survives `pyStrip`. -/
theorem mem_of_mem_pyStrip (c : Nat) (l : List Nat) (h : c ∈ pyStrip l) : c ∈ l := by
  unfold pyStrip at h
  rw [List.mem_reverse] at h
  have h2 := mem_of_mem_dropWhile _ _ _ h
  rw [List.mem_reverse] at h2
  exact mem_of_mem_dropWhile _ _ _ h2

/-- `pySplit` never returns the empty list of pieces. -/
theorem pySplit_ne_nil (sep : Nat) (l : List Nat) : pySplit sep l ≠ [] := by
  induction l with
  | nil => simp [pySplit]
  | cons a t ih =>
    rw [pySplit]
    split
    · simp
    · match h : pySplit sep t with
      | [] => exact absurd h ih
      | hh :: tt => simp

/-- Every character of a `pySplit` piece is a character of the input. -/
theorem mem_of_mem_pySplit (sep : Nat) (l : List Nat) (p : List Nat) (c : Nat)
    (hp : p ∈ pySplit sep l) (hc : c ∈ p) : c ∈ l := by
  induction l generalizing p with
  | nil =>
    simp only [pySplit, List.mem_singleton] at hp
    subst hp
    simp at hc
  | cons a t ih =>
    rw [pySplit] at hp
    split at hp
    · rcases List.mem_cons.mp hp with h | h
      · subst h; simp at hc
      · exact List.mem_cons_of_mem _ (ih p h hc)
    · match hsplit : pySplit sep t with
      | [] => exact absurd hsplit (pySplit_ne_nil sep t)
      | hh :: tt =>
        rw [hsplit] at hp
        rcases List.mem_cons.mp hp with h | h
        · subst h
          rcases List.mem_cons.mp hc with h2 | h2
          · exact h2 ▸ List.mem_cons_self a t
          · exact List.mem_cons_of_mem _ (ih hh (hsplit ▸ List.mem_cons_self hh tt) h2)
        · exact List.mem_cons_of_mem _ (ih p (hsplit ▸ List.mem_cons_of_mem hh h) hc)

/-- A lowered character is never ASCII uppercase. -/
theorem isUpperCode_toLowerCode (n : Nat) : isUpperCode (toLowerCode n) = false := by
  unfold toLowerCode isUpperCode
  split
  · next h => simp only [decide_eq_false_iff_not]; omega
  · next h => simp only [decide_eq_false_iff_not]; exact h

/-- Every token the tool-selection parser returns is free of ASCII
uppercase letters: the tokens are built from characters of the lowered
reply. -/
theorem parse_tool_selection_no_upper (resp n : List Nat)
    (h : n ∈ parse_tool_selection resp) : n.any isUpperCode = false := by
  simp only [parse_tool_selection] at h
  split at h
  · simp at h
  · rw [List.any_eq_false]
    intro c hc
    have hmem := List.mem_filter.mp h
    rcases List.mem_map.mp hmem.1 with ⟨piece, hpiece, hstrip⟩
    subst hstrip
    have hcp := mem_of_mem_pyStrip _ _ hc
    have hcl := mem_of_mem_pySplit _ _ _ _ hpiece hcp
    rcases List.mem_map.mp hcl with ⟨a, _, ha⟩
    subst ha
    simp [isUpperCode_toLowerCode a]

/-- An attribute-style tool reaches the filtered list only if its name is
among the needed names. -/
theorem filter_relevant_tools_mem (ts : List ToolVal) (needed : List (List Nat))
    (l : List ToolVal) (n d : List Nat) (sv : Option (List Nat))
    (hf : filter_relevant_tools ts needed = .ok l)
    (hm : ToolVal.obj n d sv ∈ l) : needed.contains n = true := by
  induction ts generalizing l with
  | nil =>
    rw [filter_relevant_tools] at hf
    cases hf
    simp at hm
  | cons t rest ih =>
    rw [filter_relevant_tools] at hf
    cases ht : tool_attr_name t with
    | error e => rw [ht] at hf; cases hf
    | ok m =>
      rw [ht] at hf
      cases hrec : filter_relevant_tools rest needed with
      | error e => rw [hrec] at hf; cases hf
      | ok l2 =>
        rw [hrec] at hf
        cases hf
        by_cases hcontains : needed.contains m = true
        · rw [if_pos hcontains] at hm
          rcases List.mem_cons.mp hm with h | h
          · cases t with
            | obj n2 d2 sv2 =>
              cases ht
              cases h
              exact hcontains
            | dict _ _ _ _ => cases ht
          · exact ih l2 hrec h
        · rw [if_neg hcontains] at hm
          exact ih l2 hrec hm

/-- The aggregation loop equals the union, over the registered providers in
order, of each succeeding provider's tagged descriptors. -/
theorem get_available_tools_manager_eq (provs : List (List Nat × ProviderBehavior)) :
    get_available_tools_manager provs
      = provs.flatMap (fun p =>
          if provider_fails p.2 then []
          else (provider_raw_tools p.2).map (toolDictOf p.1)) := by
  induction provs with
  | nil => rfl
  | cons p rest ih =>
    obtain ⟨server, b⟩ := p
    rw [get_available_tools_manager, List.flatMap_cons, ih]
    unfold provider_fetch_try provider_fails provider_raw_tools
    cases hc : b.connect with
    | error e => simp
    | ok u => cases hl : b.listTools with
      | error e => simp
      | ok resp => simp

/-- Every catalog entry the on-demand manager produces is a plain
dictionary value. -/
theorem get_available_tools_manager_all_dict (provs : List (List Nat × ProviderBehavior))
    (t : ToolVal) (ht : t ∈ get_available_tools_manager provs) :
    ∃ n d sch sv, t = ToolVal.dict n d sch sv := by
  rw [get_available_tools_manager_eq] at ht
  rcases List.mem_flatMap.mp ht with ⟨p, _, hmem⟩
  split at hmem
  · simp at hmem
  · rcases List.mem_map.mp hmem with ⟨rt, _, hrt⟩
    exact ⟨_, _, _, _, hrt.symm⟩

/-! ## Claim theorems -/

/-- C1: on the spec's example input the regex capture group stops at the
first closing brace, handing `_parse_tool_parameters` the unbalanced string
`\x7b"a": \x7b"b": 1\x7d`; the balanced scan then finds no matching close and the
parameters parse to `None`, so the directive is reported as "parameters
could not be parsed" and no tool is called — whereas the minimal
balanced-brace span of the payload itself is the full object
`\x7b"a": \x7b"b": 1\x7d\x7d` with the trailing junk ignored, which is what the claim
says the parser extracts. -/
theorem c1_directive_parsing_truncates :
    findall_tool_calls c1_input = [(pys "foo", c1_capture)]
    ∧ parse_tool_parameters_span c1_capture = none
    ∧ (∀ jl, parse_tool_parameters jl c1_capture = none)
    ∧ (∀ env s, tool_call_step env (pys "foo") c1_capture s
        = (tool_param_fail_line (pys "foo"), s))
    ∧ matchingSpan 0 c1_payload = some c1_object := by
  refine ⟨by decide, by decide, ?_, ?_, by decide⟩
  · intro jl
    have h : parse_tool_parameters_span c1_capture = none := by decide
    rw [parse_tool_parameters, h]
    rfl
  · intro env s
    have h : parse_tool_parameters_span c1_capture = none := by decide
    rw [tool_call_step, tool_call_try, parse_tool_parameters, h]
    rfl

/-- C7: disposing a provider client twice is safe: the first `disconnect`
clears both the session and the process reference, and the second call
performs no release action and returns without error (idempotence on the
cleared state, whatever the fallible release operations do). -/
theorem c7_disconnect_idempotent (b b2 : DisconnectBehavior) (st : MCPClientState) :
    ∃ st1 acts1, mcp_disconnect b st = .ok (st1, acts1)
      ∧ st1.session = none ∧ st1.server_process = none
      ∧ mcp_disconnect b2 st1 = .ok (st1, []) := by
  obtain ⟨sess, proc⟩ := st
  cases sess <;> cases proc <;>
    exact ⟨_, _, rfl, rfl, rfl, rfl⟩

/-- C8: the on-demand client's default timeout is 30 seconds; its
`call_tool` never lets an exception escape, and when the underlying tool
execution takes longer than the timeout the call resolves to `None`. -/
theorem c8_timeout_resolves_none (timeout elapsed : Nat)
    (inner : Except PyErr (Option (List Nat))) :
    on_demand_default_timeout = 30
    ∧ (∃ r, od_call_tool timeout elapsed inner = .ok r)
    ∧ (timeout < elapsed → od_call_tool timeout elapsed inner = .ok none) := by
  refine ⟨rfl, ?_, ?_⟩
  · by_cases hle : elapsed ≤ timeout
    · cases inner with
      | ok r => exact ⟨r, by simp [od_call_tool, od_wait_for, hle]⟩
      | error e =>
        cases e with
        | exc m => exact ⟨none, by simp [od_call_tool, od_wait_for, hle]⟩
        | timeoutError => exact ⟨none, by simp [od_call_tool, od_wait_for, hle]⟩
    · exact ⟨none, by simp [od_call_tool, od_wait_for, hle]⟩
  · intro hlt
    have hle : ¬ elapsed ≤ timeout := by omega
    simp [od_call_tool, od_wait_for, hle]

/-- C8 witness: a call whose execution takes 31 seconds against the default
30-second timeout resolves to `None`. -/
theorem c8_timeout_resolves_none_witness :
    od_call_tool 30 31 (.ok (some (pys "late result"))) = .ok none :=
  (c8_timeout_resolves_none 30 31 (.ok (some (pys "late result")))).2.2 (by decide)

/-- C2: the on-demand manager's `call_tool` never lets an exception escape,
and whenever no registered provider produces a (truthy) result — no provider
knows the tool, every provider fails, or there are no providers at all — it
returns `None`. -/
theorem c2_call_tool_none_never_throws (provs : List (List Nat × ProviderBehavior))
    (tool : List Nat) (args : JVal) :
    (∃ r, call_tool_manager provs tool args = .ok r)
    ∧ ((∀ p ∈ provs, provider_produces p.2 tool args = false) →
        call_tool_manager provs tool args = .ok none) := by
  induction provs with
  | nil => exact ⟨⟨none, rfl⟩, fun _ => rfl⟩
  | cons p rest ih =>
    obtain ⟨server, b⟩ := p
    constructor
    · rw [call_tool_manager]
      cases hc : call_tool_provider_try b tool args with
      | ok ct =>
        cases ct with
        | some text =>
          by_cases he : text.isEmpty
          · simp only [he, if_pos]
            exact ih.1
          · exact ⟨some text, by simp [he]⟩
        | none => exact ih.1
      | error e => exact ih.1
    · intro hall
      have hb : provider_produces b tool args = false := hall (server, b) (List.mem_cons_self _ _)
      have hrest : ∀ p ∈ rest, provider_produces p.2 tool args = false :=
        fun p hp => hall p (List.mem_cons_of_mem _ hp)
      rw [call_tool_manager]
      unfold provider_produces at hb
      cases hc : call_tool_provider_try b tool args with
      | ok ct =>
        rw [hc] at hb
        cases ct with
        | some text =>
          simp only at hb
          have he : text.isEmpty = true := by
            cases hte : text.isEmpty
            · rw [hte] at hb; simp at hb
            · rfl
          simp only [he, if_pos]
          exact ih.2 hrest
        | none => exact ih.2 hrest
      | error e => exact ih.2 hrest

/-- C2 witness: calling a nonexistent tool against a single provider that
owns no matching tool returns `None` without an exception. -/
theorem c2_call_tool_none_never_throws_witness :
    call_tool_manager [(pys "srv", provider_without_tool)]
      (pys "nonexistent_tool") (JVal.jobj []) = .ok none :=
  (c2_call_tool_none_never_throws [(pys "srv", provider_without_tool)]
      (pys "nonexistent_tool") (JVal.jobj [])).2
    (by
      intro p hp
      rw [List.mem_singleton] at hp
      subst hp
      rfl)

/-- C3: when some registered provider fails (to spawn, connect or list),
`get_available_tools` still returns the concatenated descriptors of exactly
the succeeding providers, in registration order, each tagged under the
`"server"` key with the name of the provider it came from; the failing
provider contributes nothing and the aggregation is not aborted. -/
theorem c3_partial_failure_aggregation (provs : List (List Nat × ProviderBehavior))
    (_hfail : ∃ p ∈ provs, provider_fails p.2 = true) :
    get_available_tools_manager provs
      = provs.flatMap (fun p =>
          if provider_fails p.2 then []
          else (provider_raw_tools p.2).map (toolDictOf p.1))
    ∧ (∀ t ∈ get_available_tools_manager provs, ∃ p ∈ provs,
        provider_fails p.2 = false
        ∧ t ∈ (provider_raw_tools p.2).map (toolDictOf p.1)
        ∧ tool_server_tag t = some p.1) := by
  refine ⟨get_available_tools_manager_eq provs, ?_⟩
  intro t ht
  rw [get_available_tools_manager_eq] at ht
  rcases List.mem_flatMap.mp ht with ⟨p, hp, hmem⟩
  refine ⟨p, hp, ?_⟩
  cases hfails : provider_fails p.2 with
  | true => rw [if_pos hfails] at hmem; simp at hmem
  | false =>
    rw [if_neg (by simp [hfails])] at hmem
    refine ⟨rfl, hmem, ?_⟩
    rcases List.mem_map.mp hmem with ⟨rt, _, hrt⟩
    subst hrt
    rfl

/-- C3 witness: over one failing and one succeeding provider, the catalog
is exactly the succeeding provider's descriptor tagged with its name. -/
theorem c3_partial_failure_aggregation_witness :
    get_available_tools_manager
        [(pys "bad", provider_failing), (pys "srv", provider_with_tool)]
      = [(pys "bad", provider_failing), (pys "srv", provider_with_tool)].flatMap
          (fun p =>
            if provider_fails p.2 then []
            else (provider_raw_tools p.2).map (toolDictOf p.1)) :=
  (c3_partial_failure_aggregation
      [(pys "bad", provider_failing), (pys "srv", provider_with_tool)]
      ⟨(pys "bad", provider_failing), List.mem_cons_self _ _, rfl⟩).1

/-- C6 counterexample: the claim's rule "otherwise split the reply on commas
and trim each token" predicts `["a", "", "b"]` for the reply `"a,,b"`, but
the parser discards the empty middle token and returns `["a", "b"]`. -/
theorem c6_counterexample_empty_tokens :
    parse_tool_selection (pys "a,,b") = [pys "a", pys "b"]
    ∧ spec_tool_selection_literal (pys "a,,b") = [pys "a", [], pys "b"]
    ∧ parse_tool_selection (pys "a,,b") ≠ spec_tool_selection_literal (pys "a,,b") := by
  refine ⟨by decide, by decide, by decide⟩

/-- C6 (amended): both selection parsers lower-case and trim the reply,
return the empty selection when it contains "none" or "no tools"
(respectively "no resources"), and otherwise split on commas, trim each
token and drop the tokens that are empty after trimming; on the claim's
examples, "None" and "NO TOOLS NEEDED" select nothing and "toolA, toolB"
selects the case-folded names. -/
theorem c6_selection_parsing :
    (∀ r, parse_tool_selection r = spec_tool_selection_amended r)
    ∧ (∀ r, parse_resource_selection r = spec_resource_selection_amended r)
    ∧ parse_tool_selection (pys "None") = []
    ∧ parse_tool_selection (pys "NO TOOLS NEEDED") = []
    ∧ parse_resource_selection (pys "None") = []
    ∧ parse_resource_selection (pys "no resources needed") = []
    ∧ parse_tool_selection (pys "toolA, toolB") = [pys "toola", pys "toolb"] := by
  refine ⟨?_, ?_, by decide, by decide, by decide, by decide, by decide⟩
  · intro r
    simp only [parse_tool_selection, spec_tool_selection_amended, pyStrip_pyLower]
  · intro r
    simp only [parse_resource_selection, spec_resource_selection_amended, pyStrip_pyLower]

/-- C10: the tool-selection parser lower-cases the model's reply, while the
execution phase filters the catalog with the case-sensitive test
`tool.name in needed_tools`; a tool whose catalog name contains an ASCII
uppercase letter therefore never reaches the execution-phase tool list,
whatever the model replied. -/
theorem c10_uppercase_name_never_selected (resp : List Nat) (ts : List ToolVal)
    (l : List ToolVal) (n d : List Nat) (sv : Option (List Nat))
    (hup : n.any isUpperCode = true)
    (hf : filter_relevant_tools ts (parse_tool_selection resp) = .ok l) :
    ToolVal.obj n d sv ∉ l := by
  intro hmem
  have hcontains := filter_relevant_tools_mem ts _ l n d sv hf hmem
  have hin : n ∈ parse_tool_selection resp := List.mem_of_elem_eq_true hcontains
  have := parse_tool_selection_no_upper resp n hin
  rw [this] at hup
  cases hup

/-- C10 witness: the model names `MyTool` verbatim, the catalog holds a tool
object of that exact name, and the filtered execution-phase list is
nevertheless empty. -/
theorem c10_uppercase_name_never_selected_witness :
    (pys "MyTool").any isUpperCode = true
    ∧ filter_relevant_tools [ToolVal.obj (pys "MyTool") [] none]
        (parse_tool_selection (pys "MyTool")) = .ok []
    ∧ ToolVal.obj (pys "MyTool") [] none ∉ ([] : List ToolVal) :=
  ⟨by decide, by rfl,
    c10_uppercase_name_never_selected (pys "MyTool")
      [ToolVal.obj (pys "MyTool") [] none] [] (pys "MyTool") [] none
      (by decide) (by rfl)⟩

/-- C4: `process_user_request` never propagates an exception: whatever the
collaborators do, it returns a value; and whenever its `try` body (resource
selection, tool selection, execution, tool-call handling, synthesis) raises,
the returned value is the user-facing message embedding the error text. -/
theorem c4_top_level_catch (env : AgEnv) (q : List Nat) (s : AgState) :
    (∃ out, process_user_request env q s = .ok out)
    ∧ (∀ e s1, agent_pipeline env q s = .error (e, s1) →
        process_user_request env q s = .ok (error_reply e, s1)) := by
  constructor
  · cases h : agent_pipeline env q s with
    | ok out => exact ⟨out, by rw [process_user_request, h]⟩
    | error es =>
      obtain ⟨e, s1⟩ := es
      exact ⟨(error_reply e, s1), by rw [process_user_request, h]⟩
  · intro e s1 h
    rw [process_user_request, h]

/-- C4 witness: against a manager whose resource lookup raises "boom", the
request returns the apologetic message embedding "boom". -/
theorem c4_top_level_catch_witness :
    process_user_request env_raising (pys "hi") ⟨0, 0, []⟩
      = .ok (error_reply (.exc (pys "boom")), ⟨0, 0, []⟩) :=
  (c4_top_level_catch env_raising (pys "hi") ⟨0, 0, []⟩).2 (.exc (pys "boom"))
    ⟨0, 0, []⟩ (by rfl)

/-- C5: with zero providers (no resources, an empty tool catalog), both
selection phases return the empty selection without consuming a model call,
the execution phase consumes exactly one model call, no tool is executed,
and when that call returns the text `r` the request returns exactly `r`. -/
theorem c5_no_providers_single_call (env : AgEnv) (q r : List Nat)
    (hres : env.resources = .ok [])
    (htools : ∀ k, env.tools k = .ok [])
    (hllm : env.llm 0 = some r) (hr : r ≠ []) :
    determine_needed_resources env q ⟨0, 0, []⟩ = .ok ([], ⟨0, 0, []⟩)
    ∧ determine_needed_tools env q [] ⟨0, 0, []⟩ = .ok ([], ⟨0, 1, []⟩)
    ∧ process_user_request env q ⟨0, 0, []⟩ = .ok (r, ⟨1, 3, []⟩) := by
  have hre : r.isEmpty = false := by
    cases r with
    | nil => exact absurd rfl hr
    | cons a t => rfl
  have h1 : determine_needed_resources env q ⟨0, 0, []⟩ = .ok ([], ⟨0, 0, []⟩) := by
    simp [determine_needed_resources, hres]
  have h2 : determine_needed_tools env q [] ⟨0, 0, []⟩ = .ok ([], ⟨0, 1, []⟩) := by
    simp [determine_needed_tools, fetch_available_tools, htools 0]
  refine ⟨h1, h2, ?_⟩
  simp [process_user_request, agent_pipeline, h1, h2, execute_with_context,
    fetch_available_tools, htools, filter_relevant_tools, format_available_tools,
    llm_generate, hllm, hre, process_tool_calls]

/-- C5 witness: in the zero-provider environment whose model answers
"hello", the request makes one model call and returns "hello". -/
theorem c5_no_providers_single_call_witness :
    process_user_request env_zero_providers (pys "hi") ⟨0, 0, []⟩
      = .ok (pys "hello", ⟨1, 3, []⟩) :=
  (c5_no_providers_single_call env_zero_providers (pys "hi") (pys "hello")
    rfl (fun _ => rfl) rfl (by decide)).2.2

/-- C9: whenever the catalog the on-demand manager aggregates is non-empty,
`process_user_request` fails for every query before any model call or tool
execution: the manager's entries are plain dictionaries, the tool prompt
reads them by attribute access, and the resulting `AttributeError` is
converted into the top-level user-facing error message. -/
theorem c9_dict_catalog_always_errors (provs : List (List Nat × ProviderBehavior))
    (env : AgEnv) (q : List Nat)
    (hres : env.resources = .ok [])
    (htools : env.tools 0 = .ok (get_available_tools_manager provs))
    (hne : (get_available_tools_manager provs).isEmpty = false) :
    process_user_request env q ⟨0, 0, []⟩
      = .ok (error_reply (dict_attr_error (pys "name")), ⟨0, 1, []⟩) := by
  obtain ⟨t, tl, hcons⟩ : ∃ t tl, get_available_tools_manager provs = t :: tl := by
    cases hc : get_available_tools_manager provs with
    | nil => rw [hc] at hne; simp at hne
    | cons a l => exact ⟨a, l, rfl⟩
  obtain ⟨n, d, sch, sv, ht⟩ :=
    get_available_tools_manager_all_dict provs t
      (by rw [hcons]; exact List.mem_cons_self _ _)
  have hfmt : format_available_tools (get_available_tools_manager provs)
      = .error (dict_attr_error (pys "name")) := by
    rw [hcons, ht]
    simp [format_available_tools, format_tool_lines, tool_attr_name]
  have h1 : determine_needed_resources env q ⟨0, 0, []⟩ = .ok ([], ⟨0, 0, []⟩) := by
    simp [determine_needed_resources, hres]
  have h2 : determine_needed_tools env q [] ⟨0, 0, []⟩
      = .error (dict_attr_error (pys "name"), ⟨0, 1, []⟩) := by
    rw [determine_needed_tools]
    rw [show fetch_available_tools env ⟨0, 0, []⟩
        = .ok (get_available_tools_manager provs, ⟨0, 1, []⟩) by
      simp [fetch_available_tools, htools]]
    rw [hcons]
    simp only [List.isEmpty_cons, Bool.false_eq_true, if_false]
    rw [← hcons, hfmt]
  simp [process_user_request, agent_pipeline, h1, h2]

/-- C9 witness: with the catalog aggregated from one healthy provider, the
request returns the dictionary-attribute error message, makes no model call
and executes no tool. -/
theorem c9_dict_catalog_always_errors_witness :
    process_user_request env_dict_catalog (pys "hi") ⟨0, 0, []⟩
      = .ok (error_reply (dict_attr_error (pys "name")), ⟨0, 1, []⟩) :=
  c9_dict_catalog_always_errors provs_one_good env_dict_catalog (pys "hi")
    rfl rfl (by rfl)

end Spendcast
